import Mathlib

/-
Verification development for the gdbserver remote-protocol backend
(pkg/proc/gdbserver.go).  The Go source is shallowly embedded below:
each definition is translated from the corresponding Go function, with
machine integers modelled as Nat reduced modulo 2^64 where overflow
matters, stateful methods as explicit state-passing functions, and
stub/environment interaction (protocol replies, symbol lookups) as
explicit parameters.
-/

namespace GdbProc

/-- Little-endian decoding of (up to) the first 8 bytes of a buffer, as
performed by binary.LittleEndian.Uint64 on a register's value slice. -/
def uint64LE (bs : List Nat) : Nat :=
  (bs.take 8).foldr (fun b acc => b % 256 + 256 * acc) 0

/-- Little-endian encoding of a 64-bit value into 8 bytes, as performed by
binary.LittleEndian.PutUint64. -/
def bytesOfUint64 (v : Nat) : List Nat :=
  [v % 256, v / 2^8 % 256, v / 2^16 % 256, v / 2^24 % 256,
   v / 2^32 % 256, v / 2^40 % 256, v / 2^48 % 256, v / 2^56 % 256]

/-- Register bank of a thread (gdbRegisters).  The Go struct stores each
register as a byte slice into a shared buffer; here the bank maps a register
name to its byte buffer.  The derived fields tls, gaddr, hasgaddr persist
across reloads. -/
structure gdbRegisters where
  regs : String → Option (List Nat)
  tls : Nat
  gaddr : Nat
  hasgaddr : Bool

/-- gdbRegisters.byName: decode a named register as a little-endian uint64;
a missing register reads as 0. -/
def gdbRegisters.byName (regs : gdbRegisters) (name : String) : Nat :=
  match regs.regs name with
  | none => 0
  | some v => uint64LE v

/-- The x86asm.Reg identifiers handled by gdbRegisters.Get.  The Go code
switches on x86asm.Reg(n); identifiers not listed fall through to the
UnknownRegisterError return, represented here by the other constructor. -/
inductive X86Reg where
  | AL | CL | DL | BL | AH | CH | DH | BH
  | SPB | BPB | SIB | DIB
  | R8B | R9B | R10B | R11B | R12B | R13B | R14B | R15B
  | AX | CX | DX | BX | SP | BP | SI | DI
  | R8W | R9W | R10W | R11W | R12W | R13W | R14W | R15W
  | EAX | ECX | EDX | EBX | ESP | EBP | ESI | EDI
  | R8L | R9L | R10L | R11L | R12L | R13L | R14L | R15L
  | RAX | RCX | RDX | RBX | RSP | RBP | RSI | RDI
  | R8 | R9 | R10 | R11 | R12 | R13 | R14 | R15
  | other (n : Nat)

/-- Error raised by gdbRegisters.Get on an unhandled register identifier. -/
inductive RegError where
  | unknownRegister
deriving DecidableEq

/-- Mask constant named mask8 in gdbRegisters.Get (value 0x000f in the
source). -/
def mask8 : Nat := 0x000f

/-- Mask constant named mask16 in gdbRegisters.Get (value 0x00ff in the
source). -/
def mask16 : Nat := 0x00ff

/-- Mask constant named mask32 in gdbRegisters.Get (value 0xffff in the
source). -/
def mask32 : Nat := 0xffff

/-- gdbRegisters.Get: map a sub-register identifier to its canonical 64-bit
container and apply the source's mask/shift. -/
def gdbRegisters.Get (regs : gdbRegisters) (r : X86Reg) : Except RegError Nat :=
  match r with
  | .AL => .ok (regs.byName "rax" &&& mask8)
  | .CL => .ok (regs.byName "rcx" &&& mask8)
  | .DL => .ok (regs.byName "rdx" &&& mask8)
  | .BL => .ok (regs.byName "rbx" &&& mask8)
  | .AH => .ok ((regs.byName "rax" >>> 8) &&& mask8)
  | .CH => .ok ((regs.byName "rcx" >>> 8) &&& mask8)
  | .DH => .ok ((regs.byName "rdx" >>> 8) &&& mask8)
  | .BH => .ok ((regs.byName "rbx" >>> 8) &&& mask8)
  | .SPB => .ok (regs.byName "rsp" &&& mask8)
  | .BPB => .ok (regs.byName "rbp" &&& mask8)
  | .SIB => .ok (regs.byName "rsi" &&& mask8)
  | .DIB => .ok (regs.byName "rdi" &&& mask8)
  | .R8B => .ok (regs.byName "r8" &&& mask8)
  | .R9B => .ok (regs.byName "r9" &&& mask8)
  | .R10B => .ok (regs.byName "r10" &&& mask8)
  | .R11B => .ok (regs.byName "r11" &&& mask8)
  | .R12B => .ok (regs.byName "r12" &&& mask8)
  | .R13B => .ok (regs.byName "r13" &&& mask8)
  | .R14B => .ok (regs.byName "r14" &&& mask8)
  | .R15B => .ok (regs.byName "r15" &&& mask8)
  | .AX => .ok (regs.byName "rax" &&& mask16)
  | .CX => .ok (regs.byName "rcx" &&& mask16)
  | .DX => .ok (regs.byName "rdx" &&& mask16)
  | .BX => .ok (regs.byName "rbx" &&& mask16)
  | .SP => .ok (regs.byName "rsp" &&& mask16)
  | .BP => .ok (regs.byName "rbp" &&& mask16)
  | .SI => .ok (regs.byName "rsi" &&& mask16)
  | .DI => .ok (regs.byName "rdi" &&& mask16)
  | .R8W => .ok (regs.byName "r8" &&& mask16)
  | .R9W => .ok (regs.byName "r9" &&& mask16)
  | .R10W => .ok (regs.byName "r10" &&& mask16)
  | .R11W => .ok (regs.byName "r11" &&& mask16)
  | .R12W => .ok (regs.byName "r12" &&& mask16)
  | .R13W => .ok (regs.byName "r13" &&& mask16)
  | .R14W => .ok (regs.byName "r14" &&& mask16)
  | .R15W => .ok (regs.byName "r15" &&& mask16)
  | .EAX => .ok (regs.byName "rax" &&& mask32)
  | .ECX => .ok (regs.byName "rcx" &&& mask32)
  | .EDX => .ok (regs.byName "rdx" &&& mask32)
  | .EBX => .ok (regs.byName "rbx" &&& mask32)
  | .ESP => .ok (regs.byName "rsp" &&& mask32)
  | .EBP => .ok (regs.byName "rbp" &&& mask32)
  | .ESI => .ok (regs.byName "rsi" &&& mask32)
  | .EDI => .ok (regs.byName "rdi" &&& mask32)
  | .R8L => .ok (regs.byName "r8" &&& mask32)
  | .R9L => .ok (regs.byName "r9" &&& mask32)
  | .R10L => .ok (regs.byName "r10" &&& mask32)
  | .R11L => .ok (regs.byName "r11" &&& mask32)
  | .R12L => .ok (regs.byName "r12" &&& mask32)
  | .R13L => .ok (regs.byName "r13" &&& mask32)
  | .R14L => .ok (regs.byName "r14" &&& mask32)
  | .R15L => .ok (regs.byName "r15" &&& mask32)
  | .RAX => .ok (regs.byName "rax")
  | .RCX => .ok (regs.byName "rcx")
  | .RDX => .ok (regs.byName "rdx")
  | .RBX => .ok (regs.byName "rbx")
  | .RSP => .ok (regs.byName "rsp")
  | .RBP => .ok (regs.byName "rbp")
  | .RSI => .ok (regs.byName "rsi")
  | .RDI => .ok (regs.byName "rdi")
  | .R8 => .ok (regs.byName "r8")
  | .R9 => .ok (regs.byName "r9")
  | .R10 => .ok (regs.byName "r10")
  | .R11 => .ok (regs.byName "r11")
  | .R12 => .ok (regs.byName "r12")
  | .R13 => .ok (regs.byName "r13")
  | .R14 => .ok (regs.byName "r14")
  | .R15 => .ok (regs.byName "r15")
  | .other _ => .error .unknownRegister

/-- Register bank whose rax container was populated from the 64-bit value
2^64 - 1 (all bits set), used to exercise gdbRegisters.Get on the rax
sub-registers. -/
def c1Regs : gdbRegisters :=
  { regs := fun n => if n = "rax" then some (bytesOfUint64 (2^64 - 1)) else none
    tls := 0, gaddr := 0, hasgaddr := false }

/-- C1: the claim states that Get on an 8/16/32-bit sub-register returns
exactly the low 8/16/32 bits of the container (and AH the container shifted
right by 8, masked to 8 bits).  The code masks with mask8 = 0x0f,
mask16 = 0xff, mask32 = 0xffff instead, i.e. with 4/8/16 bits: with rax
populated from 2^64 - 1, AL yields 0x0f instead of the low 8 bits 0xff,
AX yields 0xff instead of 0xffff, EAX yields 0xffff instead of 0xffffffff,
and AH yields 0x0f instead of 0xff.  The constants are named mask8, mask16,
mask32 under section comments announcing 8-, 16- and 32-bit registers, so
the code contradicts its own naming: the claim is right and the code wrong. -/
theorem C1_subregister_masks_observed :
    c1Regs.byName "rax" = 2^64 - 1 ∧
    c1Regs.Get X86Reg.AL = Except.ok 0x0f ∧
    c1Regs.Get X86Reg.AH = Except.ok 0x0f ∧
    c1Regs.Get X86Reg.AX = Except.ok 0xff ∧
    c1Regs.Get X86Reg.EAX = Except.ok 0xffff ∧
    (2^64 - 1) % 2^8 = 0xff ∧ (2^64 - 1) % 2^16 = 0xffff ∧
    (2^64 - 1) % 2^32 = 0xffffffff ∧ ((2^64 - 1) / 2^8) % 2^8 = 0xff :=
  ⟨rfl, rfl, rfl, rfl, rfl, rfl, rfl, rfl, rfl⟩

/-- Signal constant interruptSignal (SIGINT). -/
def interruptSignal : Nat := 0x2

/-- Signal constant breakpointSignal (SIGTRAP). -/
def breakpointSignal : Nat := 0x5

/-- Signal constant childSignal (SIGCHLD). -/
def childSignal : Nat := 0x11

/-- Signal constant stopSignal (SIGSTOP). -/
def stopSignal : Nat := 0x13

/-- The stop/forward decision of the switch statement inside
GdbserverProcess.ContinueOnce's continue loop: true means break out of
continueLoop (accept the stop), false means fall through to the next
resume, which re-issues the reply's signal.  Signals are uint8 values. -/
def continueLoopShouldStop (ctrlC isDebugserver : Bool) (sig : Fin 256) : Bool :=
  if sig.val = interruptSignal then ctrlC
  else if sig.val = breakpointSignal then true
  else if sig.val = childSignal then isDebugserver
  else if sig.val = stopSignal then true
  else if sig.val = 0x91 ∨ sig.val = 0x92 ∨ sig.val = 0x93 ∨
          sig.val = 0x94 ∨ sig.val = 0x95 ∨ sig.val = 0x96 then true
  else false

/-- Stop replies delivered by gdbConn.resume: either a T-packet carrying a
thread id and a signal, or a W/X packet reporting process exit with a
status. -/
inductive ResumeReply where
  | stopped (threadID : String) (sig : Fin 256)
  | procExited (status : Nat)

/-- Outcome of the continue loop of ContinueOnce: a stop that was accepted,
a process-exit reply, or (as a modelling artifact for the reply script
running out) blocking forever on the stub. -/
inductive LoopOutcome where
  | stopAccepted (threadID : String) (sig : Fin 256)
  | exitedReply (status : Nat)
  | blocked
deriving DecidableEq

/-- The continue loop of GdbserverProcess.ContinueOnce, driven by a script
of stub replies.  Each iteration resumes the inferior forwarding signal sig
(recorded in the returned trace of sent signals) and consumes a reply; a
reply whose signal the switch does not accept is forwarded on the next
resume.  ctrlC is the value of the p.ctrlC flag observed at classification
time (set asynchronously by RequestManualStop). -/
def continueLoop (ctrlC isDebugserver : Bool) (sig : Fin 256) :
    List ResumeReply → List (Fin 256) × LoopOutcome
  | [] => ([sig], .blocked)
  | .procExited st :: _ => ([sig], .exitedReply st)
  | .stopped tid s :: rest =>
    if continueLoopShouldStop ctrlC isDebugserver s then ([sig], .stopAccepted tid s)
    else
      let r := continueLoop ctrlC isDebugserver s rest
      (sig :: r.1, r.2)

/-- The signal trace of the continue loop always starts with the signal the
loop was entered with (the first vCont carries that signal). -/
theorem continueLoop_sent_head (ctrlC dbg : Bool) (sig : Fin 256)
    (rs : List ResumeReply) :
    (continueLoop ctrlC dbg sig rs).1.head? = some sig := by
  cases rs with
  | nil => rfl
  | cons r rest =>
    cases r with
    | procExited st => rfl
    | stopped tid s =>
      simp only [continueLoop]
      split
      · rfl
      · rfl

set_option maxRecDepth 8000 in
/-- C2: the stop/forward decision is a deterministic function of
(signal, ctrlC, isDebugserver): 0x2 stops iff ctrlC is set, 0x5, 0x13 and
0x91..0x96 always stop, 0x11 stops iff the stub is debugserver, and every
other signal is forwarded: the next resume after a rejected stop reply
carries that reply's signal. -/
theorem C2_stop_signal_classification :
    (∀ (sig : Fin 256) (ctrlC dbg : Bool),
      continueLoopShouldStop ctrlC dbg sig = true ↔
        ((sig.val = 0x2 ∧ ctrlC = true) ∨ sig.val = 0x5 ∨ sig.val = 0x13 ∨
         (0x91 ≤ sig.val ∧ sig.val ≤ 0x96) ∨ (sig.val = 0x11 ∧ dbg = true))) ∧
    (∀ (ctrlC dbg : Bool) (sigFwd s : Fin 256) (tid : String)
       (rest : List ResumeReply),
      continueLoopShouldStop ctrlC dbg s = false →
      (continueLoop ctrlC dbg sigFwd (ResumeReply.stopped tid s :: rest)).1 =
        sigFwd :: (continueLoop ctrlC dbg s rest).1 ∧
      (continueLoop ctrlC dbg s rest).1.head? = some s) := by
  constructor
  · decide
  · intro ctrlC dbg sigFwd s tid rest h
    refine ⟨?_, continueLoop_sent_head ctrlC dbg s rest⟩
    simp only [continueLoop, h, if_neg, Bool.false_eq_true, ite_false]

/-- Witness for C2: signal 0x9 (SIGKILL) is rejected by the classifier, so
a vCont that stopped with it is followed by a resume forwarding 0x9. -/
theorem C2_stop_signal_classification_witness :
    (continueLoop false false 0 [ResumeReply.stopped "1a2" 9]).1 =
      (0 : Fin 256) :: (continueLoop false false 9 []).1 ∧
    (continueLoop false false (9 : Fin 256) []).1.head? = some 9 :=
  C2_stop_signal_classification.2 false false 0 9 "1a2" [] (by decide)

/-- Breakpoint kinds used by the file: UserBreakpoint and the internal
NextBreakpoint (set by StepInstruction on a parked goroutine). -/
inductive BreakpointKind where
  | userBreakpoint
  | nextBreakpoint
deriving DecidableEq

/-- Breakpoint record (the fields of proc.Breakpoint this file populates
and reads; the condition expression and per-goroutine hit map are carried
by the environment where needed). -/
structure Breakpoint where
  functionName : String
  file : String
  line : Nat
  addr : Nat
  kind : BreakpointKind
  id : Int
  name : String := ""
deriving DecidableEq

/-- Error values produced by the embedded operations (ProcessExitedError,
BreakpointExistsError, NoBreakpointError, InvalidAddressError, a stub-level
protocol failure, and a marker for the reply script running out, which in
the real code is the call blocking on the stub forever). -/
inductive GdbErr where
  | processExited (pid : Int) (status : Nat)
  | breakpointExists (file : String) (line : Nat) (addr : Nat)
  | noBreakpoint (addr : Nat)
  | invalidAddress (addr : Nat)
  | stubError
  | blocked
deriving DecidableEq

/-- Subtraction of uint64 values with Go's wraparound semantics. -/
def u64sub (a b : Nat) : Nat := (a + (2^64 - b % 2^64)) % 2^64

/-- GdbserverProcess.FindBreakpoint: probe the table at
pc - breakpointSize (the PC may be one byte past the trap) and fall back
to pc itself. -/
def FindBreakpoint (bps : List (Nat × Breakpoint)) (breakpointSize : Nat)
    (pc : Nat) : Option Breakpoint :=
  match List.lookup (u64sub pc breakpointSize) bps with
  | some bp => some bp
  | none => List.lookup pc bps

/-- Thread-local state touched by GdbserverThread.SetCurrentBreakpoint.
pc is the register bank's PC; stubPCWrites records, in order, the PC values
written back to the stub by gdbRegisters.SetPC; hitEvents records the hit
counter increments (one entry per bp.TotalHitCount++). -/
structure ThreadState where
  pc : Nat
  currentBreakpoint : Option Breakpoint
  breakpointConditionMet : Bool
  breakpointConditionError : Option GdbErr
  stubPCWrites : List Nat
  hitEvents : List Nat
deriving DecidableEq

/-- Environment of a SetCurrentBreakpoint call: the process breakpoint
table, the architecture breakpoint size, whether the stub register write
issued by gdbRegisters.SetPC succeeds, and the outcome of
bp.checkCondition on this thread. -/
structure SCBEnv where
  breakpoints : List (Nat × Breakpoint)
  breakpointSize : Nat
  setPCOk : Bool
  condMet : Bool
  condErr : Option GdbErr
deriving DecidableEq

/-- Tail of GdbserverThread.SetCurrentBreakpoint after the PC adjustment:
record the breakpoint as the thread's CurrentBreakpoint, evaluate its
condition and bump the hit counters when the condition is met. -/
def recordCurrentBreakpoint (env : SCBEnv) (bp : Breakpoint)
    (t : ThreadState) : ThreadState × Option GdbErr :=
  let t1 := { t with currentBreakpoint := some bp,
                     breakpointConditionMet := env.condMet,
                     breakpointConditionError := env.condErr }
  if env.condMet then ({ t1 with hitEvents := t1.hitEvents ++ [bp.addr] }, none)
  else (t1, none)

/-- GdbserverThread.SetCurrentBreakpoint: clear CurrentBreakpoint, look up
a breakpoint from the current PC through FindBreakpoint, rewind the PC to
the breakpoint address (writing it back to the stub) when it differs, then
record the breakpoint.  A failed stub write returns the error before the
breakpoint is recorded. -/
def SetCurrentBreakpoint (env : SCBEnv) (t0 : ThreadState) :
    ThreadState × Option GdbErr :=
  let t := { t0 with currentBreakpoint := none }
  match FindBreakpoint env.breakpoints env.breakpointSize t.pc with
  | none => (t, none)
  | some bp =>
    if t.pc = bp.addr then recordCurrentBreakpoint env bp t
    else
      let t1 := { t with pc := bp.addr, stubPCWrites := t.stubPCWrites ++ [bp.addr] }
      if env.setPCOk then recordCurrentBreakpoint env bp t1
      else (t1, some GdbErr.stubError)

/-- C3: the current-breakpoint lookup first probes the table at
pc - breakpointSize and only on a miss at pc; and when a breakpoint is
found whose address differs from the thread's PC, the PC is set to the
breakpoint address and written back to the stub before the breakpoint is
recorded as CurrentBreakpoint (witnessed by the failed-write case, which
leaves CurrentBreakpoint empty with the write already issued). -/
theorem C3_current_breakpoint_lookup (env : SCBEnv) (t : ThreadState)
    (bp : Breakpoint) :
    (List.lookup (u64sub t.pc env.breakpointSize) env.breakpoints = some bp →
      FindBreakpoint env.breakpoints env.breakpointSize t.pc = some bp) ∧
    (List.lookup (u64sub t.pc env.breakpointSize) env.breakpoints = none →
      FindBreakpoint env.breakpoints env.breakpointSize t.pc =
        List.lookup t.pc env.breakpoints) ∧
    (FindBreakpoint env.breakpoints env.breakpointSize t.pc = some bp →
      t.pc ≠ bp.addr → env.setPCOk = true →
      (SetCurrentBreakpoint env t).1.pc = bp.addr ∧
      (SetCurrentBreakpoint env t).1.stubPCWrites = t.stubPCWrites ++ [bp.addr] ∧
      (SetCurrentBreakpoint env t).1.currentBreakpoint = some bp ∧
      (SetCurrentBreakpoint env t).2 = none) ∧
    (FindBreakpoint env.breakpoints env.breakpointSize t.pc = some bp →
      t.pc ≠ bp.addr → env.setPCOk = false →
      (SetCurrentBreakpoint env t).1.currentBreakpoint = none ∧
      (SetCurrentBreakpoint env t).1.stubPCWrites = t.stubPCWrites ++ [bp.addr] ∧
      (SetCurrentBreakpoint env t).2 = some GdbErr.stubError) := by
  refine ⟨?_, ?_, ?_, ?_⟩
  · intro h
    simp [FindBreakpoint, h]
  · intro h
    simp [FindBreakpoint, h]
  · intro hfind hne hok
    simp only [SetCurrentBreakpoint]
    rw [show ({ t with currentBreakpoint := none } : ThreadState).pc = t.pc from rfl] at *
    rw [hfind]
    simp only [recordCurrentBreakpoint, hok, if_neg hne, if_true]
    cases env.condMet <;> simp
  · intro hfind hne hnok
    simp only [SetCurrentBreakpoint]
    rw [hfind]
    simp [recordCurrentBreakpoint, hnok, if_neg hne]

/-- Breakpoint used by the concrete C3 scenario. -/
def c3Bp : Breakpoint :=
  { functionName := "main.main", file := "main.go", line := 10,
    addr := 0x401000, kind := .userBreakpoint, id := 1 }

/-- Environment of the concrete C3 scenario: one breakpoint at 0x401000,
breakpoint size 1, stub writes succeed, condition met. -/
def c3Env : SCBEnv :=
  { breakpoints := [(0x401000, c3Bp)], breakpointSize := 1,
    setPCOk := true, condMet := true, condErr := none }

/-- Thread of the concrete C3 scenario, stopped with PC one byte past the
trap. -/
def c3Thread : ThreadState :=
  { pc := 0x401001, currentBreakpoint := none,
    breakpointConditionMet := false, breakpointConditionError := none,
    stubPCWrites := [], hitEvents := [] }

/-- Witness for C3: with a breakpoint at 0x401000 and the PC reported at
0x401001, the PC is rewound to 0x401000, written back, and the breakpoint
recorded. -/
theorem C3_current_breakpoint_lookup_witness :
    (SetCurrentBreakpoint c3Env c3Thread).1.pc = 0x401000 ∧
    (SetCurrentBreakpoint c3Env c3Thread).1.stubPCWrites = [0x401000] ∧
    (SetCurrentBreakpoint c3Env c3Thread).1.currentBreakpoint = some c3Bp ∧
    (SetCurrentBreakpoint c3Env c3Thread).2 = none :=
  (C3_current_breakpoint_lookup c3Env c3Thread c3Bp).2.2.1
    (by decide) (by decide) rfl

/-- Capability flags of a session (GdbserverProcess.gcmdok and
GdbserverProcess.threadStopInfo). -/
structure CapFlags where
  gcmdok : Bool
  threadStopInfo : Bool
deriving DecidableEq

/-- Session operations, as they affect the capability flags.  A scan of
the source shows exactly two writes after initialization: gcmdok is
assigned false inside GdbserverThread.reloadRegisters when the stub
answers the g packet as unsupported (and that code is guarded by gcmdok
being true), and threadStopInfo is assigned false inside
GdbserverProcess.updateThreadList when qThreadStopInfo is unsupported
(guarded by threadStopInfo being true).  Every other operation leaves the
flags untouched and is represented by otherOp. -/
inductive SessionOp where
  | reloadRegisters (gUnsupported : Bool)
  | updateThreadList (stopInfoUnsupported : Bool)
  | otherOp

/-- Effect of one session operation on the capability flags. -/
def capStep (f : CapFlags) : SessionOp → CapFlags
  | .reloadRegisters u => if f.gcmdok && u then { f with gcmdok := false } else f
  | .updateThreadList u =>
    if f.threadStopInfo && u then { f with threadStopInfo := false } else f
  | .otherOp => f

/-- Effect of a sequence of session operations on the capability flags. -/
def capRun (f : CapFlags) (ops : List SessionOp) : CapFlags :=
  ops.foldl capStep f

/-- Capability flags at connection creation (GdbserverConnect initializes
both to true). -/
def initialCapFlags : CapFlags := { gcmdok := true, threadStopInfo := true }

/-- A single session operation never turns a capability flag back on. -/
theorem capStep_mono (f : CapFlags) (op : SessionOp) :
    ((capStep f op).gcmdok = true → f.gcmdok = true) ∧
    ((capStep f op).threadStopInfo = true → f.threadStopInfo = true) := by
  cases op <;> simp only [capStep] <;> constructor <;> intro h <;>
    (first | exact h | (revert h; split <;> simp_all))

/-- Along a run, gcmdok true implies it was true at the start. -/
theorem capRun_gcmdok_mono (ops : List SessionOp) (f : CapFlags) :
    (capRun f ops).gcmdok = true → f.gcmdok = true := by
  induction ops generalizing f with
  | nil => exact fun h => h
  | cons op rest ih =>
    intro h
    exact (capStep_mono f op).1 (ih (capStep f op) h)

/-- Along a run, threadStopInfo true implies it was true at the start. -/
theorem capRun_threadStopInfo_mono (ops : List SessionOp) (f : CapFlags) :
    (capRun f ops).threadStopInfo = true → f.threadStopInfo = true := by
  induction ops generalizing f with
  | nil => exact fun h => h
  | cons op rest ih =>
    intro h
    exact (capStep_mono f op).2 (ih (capStep f op) h)

/-- C4: gcmdok and threadStopInfo start true at connection creation, a
step changes a flag only from true to false (so along any trace each flag
transitions at most once), and no continuation of a run ever turns a flag
back on. -/
theorem C4_capability_downgrade_monotone (f : CapFlags)
    (pre suf : List SessionOp) (op : SessionOp) :
    initialCapFlags.gcmdok = true ∧ initialCapFlags.threadStopInfo = true ∧
    ((capRun f (pre ++ suf)).gcmdok = true → (capRun f pre).gcmdok = true) ∧
    ((capRun f (pre ++ suf)).threadStopInfo = true →
      (capRun f pre).threadStopInfo = true) ∧
    ((capStep f op).gcmdok ≠ f.gcmdok →
      f.gcmdok = true ∧ (capStep f op).gcmdok = false) ∧
    ((capStep f op).threadStopInfo ≠ f.threadStopInfo →
      f.threadStopInfo = true ∧ (capStep f op).threadStopInfo = false) := by
  refine ⟨rfl, rfl, ?_, ?_, ?_, ?_⟩
  · intro h
    rw [capRun, List.foldl_append] at h
    exact capRun_gcmdok_mono suf (capRun f pre) h
  · intro h
    rw [capRun, List.foldl_append] at h
    exact capRun_threadStopInfo_mono suf (capRun f pre) h
  · intro h
    cases op with
    | reloadRegisters u => revert h; simp only [capStep]; split <;> simp_all
    | updateThreadList u => revert h; simp only [capStep]; split <;> simp_all
    | otherOp => exact absurd rfl h
  · intro h
    cases op with
    | reloadRegisters u => revert h; simp only [capStep]; split <;> simp_all
    | updateThreadList u => revert h; simp only [capStep]; split <;> simp_all
    | otherOp => exact absurd rfl h

/-- Witness for C4: a session that downgrades both flags keeps them down
across a further operation. -/
theorem C4_capability_downgrade_monotone_witness :
    ((capRun initialCapFlags
        ([SessionOp.reloadRegisters true] ++ [SessionOp.updateThreadList true])).gcmdok = true →
      (capRun initialCapFlags [SessionOp.reloadRegisters true]).gcmdok = true) ∧
    ((capStep initialCapFlags (SessionOp.reloadRegisters true)).gcmdok ≠
        initialCapFlags.gcmdok →
      initialCapFlags.gcmdok = true ∧
      (capStep initialCapFlags (SessionOp.reloadRegisters true)).gcmdok = false) :=
  ⟨(C4_capability_downgrade_monotone initialCapFlags
      [SessionOp.reloadRegisters true] [SessionOp.updateThreadList true]
      (SessionOp.reloadRegisters true)).2.2.1,
   (C4_capability_downgrade_monotone initialCapFlags
      [SessionOp.reloadRegisters true] [SessionOp.updateThreadList true]
      (SessionOp.reloadRegisters true)).2.2.2.2.1⟩

/-- Process-level state touched by the breakpoint-table operations and the
run-control engine: the breakpoint table (a key-unique association list
standing for the Go map breakpoints), the two id counters, the exited and
ctrlC flags and the connection pid. -/
structure PState where
  breakpoints : List (Nat × Breakpoint)
  breakpointIDCounter : Int
  internalBreakpointIDCounter : Int
  exited : Bool
  ctrlC : Bool
  pid : Int
deriving DecidableEq

/-- GdbserverProcess.SetBreakpoint.  loc is the result of
p.bi.PCToLine(addr) as (file, line, function name), none when the function
lookup fails; stubSetOk tells whether the stub's Z0 packet succeeds.  The
id counter for the breakpoint's kind is incremented before the stub is
contacted, and the table is extended only after the stub succeeds. -/
def SetBreakpoint (s : PState) (addr : Nat) (kind : BreakpointKind)
    (loc : Option (String × Nat × String)) (stubSetOk : Bool) :
    PState × Except GdbErr Breakpoint :=
  match List.lookup addr s.breakpoints with
  | some bp => (s, .error (.breakpointExists bp.file bp.line bp.addr))
  | none =>
    match loc with
    | none => (s, .error (.invalidAddress addr))
    | some (f, l, fnName) =>
      let bp0 : Breakpoint :=
        { functionName := fnName, file := f, line := l, addr := addr,
          kind := kind, id := 0 }
      let sc :=
        if kind ≠ BreakpointKind.userBreakpoint then
          ({ s with internalBreakpointIDCounter := s.internalBreakpointIDCounter + 1 },
           { bp0 with id := s.internalBreakpointIDCounter + 1 })
        else
          ({ s with breakpointIDCounter := s.breakpointIDCounter + 1 },
           { bp0 with id := s.breakpointIDCounter + 1 })
      if stubSetOk then
        ({ sc.1 with breakpoints := sc.1.breakpoints ++ [(addr, sc.2)] }, .ok sc.2)
      else (sc.1, .error .stubError)

/-- GdbserverProcess.ClearBreakpoint.  stubClearOk tells whether the
stub's z0 packet succeeds; the table entry is removed only after the stub
succeeds. -/
def ClearBreakpoint (s : PState) (addr : Nat) (stubClearOk : Bool) :
    PState × Except GdbErr Breakpoint :=
  if s.exited then (s, .error (.processExited s.pid 0))
  else
    match List.lookup addr s.breakpoints with
    | none => (s, .error (.noBreakpoint addr))
    | some bp =>
      if stubClearOk then
        ({ s with breakpoints := s.breakpoints.filter (fun q => decide (q.1 ≠ addr)) },
         .ok bp)
      else (s, .error .stubError)

/-- An address with no entry in an association list differs from every key
of the list. -/
theorem lookup_none_keys (a : Nat) (l : List (Nat × Breakpoint))
    (h : List.lookup a l = none) : ∀ q ∈ l, q.1 ≠ a := by
  induction l with
  | nil => intro q hq; simp at hq
  | cons p rest ih =>
    obtain ⟨k, b⟩ := p
    intro q hq
    simp only [List.lookup] at h
    cases hab : a == k with
    | true => rw [hab] at h; exact absurd h (by simp)
    | false =>
      rw [hab] at h
      rcases List.mem_cons.mp hq with hq | hq
      · subst hq
        intro he
        have he2 : k = a := he
        rw [he2] at hab
        simp at hab
      · exact ih h q hq

/-- Appending a fresh entry makes it the lookup result for its key. -/
theorem lookup_append_single (a : Nat) (b : Breakpoint)
    (l : List (Nat × Breakpoint)) (h : List.lookup a l = none) :
    List.lookup a (l ++ [(a, b)]) = some b := by
  induction l with
  | nil => simp [List.lookup]
  | cons p rest ih =>
    obtain ⟨k, c⟩ := p
    simp only [List.lookup] at h ⊢
    cases hab : a == k with
    | true => rw [hab] at h; exact absurd h (by simp)
    | false => rw [hab] at h; exact ih h

/-- Filtering out a key absent from an association list, after appending a
single entry with that key, recovers the original list. -/
theorem filter_append_single (a : Nat) (b : Breakpoint)
    (l : List (Nat × Breakpoint)) (h : ∀ q ∈ l, q.1 ≠ a) :
    (l ++ [(a, b)]).filter (fun q => decide (q.1 ≠ a)) = l := by
  rw [List.filter_append]
  have h1 : l.filter (fun q => decide (q.1 ≠ a)) = l :=
    List.filter_eq_self.mpr (fun q hq => by simpa using h q hq)
  have h2 : ([(a, b)] : List (Nat × Breakpoint)).filter
      (fun q => decide (q.1 ≠ a)) = [] := by simp
  rw [h1, h2, List.append_nil]

/-- Inversion of a successful SetBreakpoint: the address was free, the
stub call succeeded, the table gained exactly the new entry, the exited
flag is untouched, and the id is counter + 1 for the kind's counter. -/
theorem SetBreakpoint_ok_inv (s : PState) (addr : Nat)
    (kind : BreakpointKind) (loc : Option (String × Nat × String))
    (stubSetOk : Bool) (s1 : PState) (bp : Breakpoint)
    (h : SetBreakpoint s addr kind loc stubSetOk = (s1, .ok bp)) :
    List.lookup addr s.breakpoints = none ∧ stubSetOk = true ∧
    s1.breakpoints = s.breakpoints ++ [(addr, bp)] ∧
    s1.exited = s.exited ∧ bp.addr = addr ∧ bp.kind = kind ∧
    (kind = .userBreakpoint → bp.id = s.breakpointIDCounter + 1) ∧
    (kind ≠ .userBreakpoint → bp.id = s.internalBreakpointIDCounter + 1) := by
  cases hl : List.lookup addr s.breakpoints with
  | some bp0 => simp [SetBreakpoint, hl] at h
  | none =>
    cases loc with
    | none => simp [SetBreakpoint, hl] at h
    | some t =>
      obtain ⟨f, l, fnName⟩ := t
      cases stubSetOk with
      | false =>
        by_cases hk : kind = BreakpointKind.userBreakpoint <;>
          simp [SetBreakpoint, hl, hk] at h
      | true =>
        by_cases hk : kind = BreakpointKind.userBreakpoint
        · subst hk
          simp only [SetBreakpoint, hl] at h
          simp only [ne_eq, not_true_eq_false, if_false, if_true,
            Prod.mk.injEq, Except.ok.injEq] at h
          obtain ⟨hs1, hbp⟩ := h
          subst hs1; subst hbp
          refine ⟨rfl, rfl, rfl, rfl, rfl, rfl, fun _ => rfl, fun hc => absurd rfl hc⟩
        · simp only [SetBreakpoint, hl] at h
          simp only [ne_eq, hk, not_false_eq_true, if_true,
            Prod.mk.injEq, Except.ok.injEq] at h
          obtain ⟨hs1, hbp⟩ := h
          subst hs1; subst hbp
          exact ⟨rfl, rfl, rfl, rfl, rfl, rfl, fun hc => absurd hc hk, fun _ => rfl⟩

/-- C5: in a live session, a successful SetBreakpoint followed by
ClearBreakpoint at the same address restores the breakpoint table; a
second SetBreakpoint at an occupied address returns BreakpointExistsError
leaving the whole state untouched; ClearBreakpoint of an unknown address
returns NoBreakpointError leaving the whole state untouched. -/
theorem C5_breakpoint_table_roundtrip (s : PState) (addr : Nat)
    (kind : BreakpointKind) (loc : Option (String × Nat × String))
    (stubOk : Bool) (s1 : PState) (bp : Breakpoint) :
    (s.exited = false →
      SetBreakpoint s addr kind loc true = (s1, .ok bp) →
      (ClearBreakpoint s1 addr true).1.breakpoints = s.breakpoints ∧
      (ClearBreakpoint s1 addr true).2 = .ok bp) ∧
    (List.lookup addr s.breakpoints = some bp →
      SetBreakpoint s addr kind loc stubOk =
        (s, .error (.breakpointExists bp.file bp.line bp.addr))) ∧
    (s.exited = false → List.lookup addr s.breakpoints = none →
      ClearBreakpoint s addr stubOk = (s, .error (.noBreakpoint addr))) := by
  refine ⟨?_, ?_, ?_⟩
  · intro hex hset
    obtain ⟨hfree, -, hbps, hexeq, -, -, -, -⟩ :=
      SetBreakpoint_ok_inv s addr kind loc true s1 bp hset
    have hex1 : s1.exited = false := by rw [hexeq, hex]
    have hlook : List.lookup addr s1.breakpoints = some bp := by
      rw [hbps]; exact lookup_append_single addr bp s.breakpoints hfree
    have hfil : s1.breakpoints.filter (fun q => decide (q.1 ≠ addr)) =
        s.breakpoints := by
      rw [hbps]
      exact filter_append_single addr bp s.breakpoints
        (lookup_none_keys addr s.breakpoints hfree)
    simp only [ne_eq, decide_not] at hfil
    simp [ClearBreakpoint, hex1, hlook, hfil]
  · intro h
    simp [SetBreakpoint, h]
  · intro hex h
    simp [ClearBreakpoint, hex, h]

/-- Witness state for the C5 scenario: a live session with an empty
breakpoint table. -/
def c5Init : PState :=
  { breakpoints := [], breakpointIDCounter := 0,
    internalBreakpointIDCounter := 0, exited := false, ctrlC := false,
    pid := 42 }

/-- Witness for C5: setting and clearing a breakpoint at 0x401000 in an
empty table restores the empty table, and clearing an unknown address
reports NoBreakpointError. -/
theorem C5_breakpoint_table_roundtrip_witness :
    ((ClearBreakpoint (SetBreakpoint c5Init 0x401000
        BreakpointKind.userBreakpoint (some ("main.go", 10, "main.main"))
        true).1 0x401000 true).1.breakpoints = c5Init.breakpoints ∧
      (ClearBreakpoint (SetBreakpoint c5Init 0x401000
        BreakpointKind.userBreakpoint (some ("main.go", 10, "main.main"))
        true).1 0x401000 true).2 =
        .ok { functionName := "main.main", file := "main.go", line := 10,
              addr := 0x401000, kind := .userBreakpoint, id := 1 }) ∧
    ClearBreakpoint c5Init 0x402000 true =
      (c5Init, .error (.noBreakpoint 0x402000)) :=
  ⟨(C5_breakpoint_table_roundtrip c5Init 0x401000
      BreakpointKind.userBreakpoint (some ("main.go", 10, "main.main"))
      true _ _).1 rfl rfl,
   (C5_breakpoint_table_roundtrip c5Init 0x402000
      BreakpointKind.userBreakpoint (some ("main.go", 10, "main.main"))
      true c5Init
      { functionName := "main.main", file := "main.go", line := 10,
        addr := 0x402000, kind := .userBreakpoint, id := 1 }).2.2 rfl rfl⟩

/-- C10: the breakpoint table is modified only on full success: an error
result of SetBreakpoint or ClearBreakpoint leaves the table exactly as it
was (only the id counter may have advanced in the stub-failure case of
SetBreakpoint), and a failed stub Z0/z0 never changes the table. -/
theorem C10_breakpoint_ops_atomic (s : PState) (addr : Nat)
    (kind : BreakpointKind) (loc : Option (String × Nat × String))
    (stubOk : Bool) (e : GdbErr) :
    ((SetBreakpoint s addr kind loc stubOk).2 = .error e →
      (SetBreakpoint s addr kind loc stubOk).1.breakpoints = s.breakpoints) ∧
    (stubOk = false →
      (SetBreakpoint s addr kind loc stubOk).1.breakpoints = s.breakpoints) ∧
    ((ClearBreakpoint s addr stubOk).2 = .error e →
      (ClearBreakpoint s addr stubOk).1.breakpoints = s.breakpoints) ∧
    (stubOk = false →
      (ClearBreakpoint s addr stubOk).1.breakpoints = s.breakpoints) := by
  have hset : (SetBreakpoint s addr kind loc stubOk).2 = .error e ∨ stubOk = false →
      (SetBreakpoint s addr kind loc stubOk).1.breakpoints = s.breakpoints := by
    intro h
    cases hl : List.lookup addr s.breakpoints with
    | some bp0 => simp [SetBreakpoint, hl]
    | none =>
      cases loc with
      | none => simp [SetBreakpoint, hl]
      | some t =>
        obtain ⟨f, l, fnName⟩ := t
        cases stubOk with
        | false =>
          by_cases hk : kind = BreakpointKind.userBreakpoint <;>
            simp [SetBreakpoint, hl, hk]
        | true =>
          rcases h with h | h
          · by_cases hk : kind = BreakpointKind.userBreakpoint <;>
              simp [SetBreakpoint, hl, hk] at h
          · exact absurd h (by simp)
  have hclear : (ClearBreakpoint s addr stubOk).2 = .error e ∨ stubOk = false →
      (ClearBreakpoint s addr stubOk).1.breakpoints = s.breakpoints := by
    intro h
    cases hex : s.exited with
    | true => simp [ClearBreakpoint, hex]
    | false =>
      cases hl : List.lookup addr s.breakpoints with
      | none => simp [ClearBreakpoint, hex, hl]
      | some bp0 =>
        cases stubOk with
        | false => simp [ClearBreakpoint, hex, hl]
        | true =>
          rcases h with h | h
          · simp [ClearBreakpoint, hex, hl] at h
          · exact absurd h (by simp)
  exact ⟨fun h => hset (Or.inl h), fun h => hset (Or.inr h),
         fun h => hclear (Or.inl h), fun h => hclear (Or.inr h)⟩

/-- Witness for C10: a stub-level Z0 failure at a fresh address leaves the
table empty, and clearing an unknown address leaves it empty too. -/
theorem C10_breakpoint_ops_atomic_witness :
    (SetBreakpoint c5Init 0x401000 BreakpointKind.userBreakpoint
        (some ("main.go", 10, "main.main")) false).1.breakpoints =
      c5Init.breakpoints ∧
    (ClearBreakpoint c5Init 0x401000 false).1.breakpoints =
      c5Init.breakpoints :=
  ⟨(C10_breakpoint_ops_atomic c5Init 0x401000 BreakpointKind.userBreakpoint
      (some ("main.go", 10, "main.main")) false GdbErr.stubError).2.1 rfl,
   (C10_breakpoint_ops_atomic c5Init 0x401000 BreakpointKind.userBreakpoint
      (some ("main.go", 10, "main.main")) false GdbErr.stubError).2.2.2 rfl⟩

/-- Tail of GdbserverConnect: install a breakpoint at runtime.startpanic
with kind UserBreakpoint and, on success, rename it unrecovered-panic,
overwrite its id with -1 and decrement the user breakpoint id counter
(the Go breakpoint is a pointer into the table, so the overwrite is
visible in the table). -/
def connectPanicStep (s : PState) (panicpc : Nat)
    (loc : Option (String × Nat × String)) (stubSetOk : Bool) : PState :=
  match SetBreakpoint s panicpc .userBreakpoint loc stubSetOk with
  | (s1, .ok bp) =>
    { s1 with
      breakpoints := s1.breakpoints.map (fun q =>
        if q.1 = panicpc then
          (q.1, { bp with name := "unrecovered-panic", id := -1 })
        else q),
      breakpointIDCounter := s1.breakpointIDCounter - 1 }
  | (s1, .error _) => s1

/-- Updating the entry of a present key through map is seen by lookup. -/
theorem lookup_map_update (l : List (Nat × Breakpoint)) (a : Nat)
    (nb : Breakpoint) (bp0 : Breakpoint) (h : List.lookup a l = some bp0) :
    List.lookup a (l.map (fun q => if q.1 = a then (q.1, nb) else q)) =
      some nb := by
  induction l with
  | nil => simp [List.lookup] at h
  | cons p rest ih =>
    obtain ⟨k, b⟩ := p
    by_cases hk : k = a
    · subst hk
      have hmap : List.map (fun q => if q.1 = k then (q.1, nb) else q)
          ((k, b) :: rest) =
          (k, nb) :: List.map (fun q => if q.1 = k then (q.1, nb) else q) rest := by
        simp
      rw [hmap]
      simp [List.lookup]
    · have hab : (a == k) = false := by
        simp only [beq_eq_false_iff_ne, ne_eq]
        exact fun he => hk he.symm
      have h2 : List.lookup a rest = some bp0 := by
        simp only [List.lookup] at h
        rw [hab] at h
        exact h
      have hmap : List.map (fun q => if q.1 = a then (q.1, nb) else q)
          ((k, b) :: rest) =
          (k, b) :: List.map (fun q => if q.1 = a then (q.1, nb) else q) rest := by
        simp [hk]
      rw [hmap]
      simp only [List.lookup]
      rw [hab]
      exact ih h2

/-- C6 counterexample: from a fresh live session, installing an internal
(Next-kind) breakpoint through SetBreakpoint stores it with id 1, which is
not negative, contradicting the claim that internal breakpoints carry
negative ids. -/
theorem C6_counterexample :
    (List.lookup 0x401000 (SetBreakpoint c5Init 0x401000
        BreakpointKind.nextBreakpoint (some ("main.go", 10, "main.main"))
        true).1.breakpoints).map (fun bp => (bp.kind, bp.id)) =
      some (BreakpointKind.nextBreakpoint, 1) ∧
    ¬ ((1 : Int) < 0) := by
  exact ⟨rfl, by decide⟩

/-- C6 as amended: every breakpoint created through SetBreakpoint carries
a positive id (user and internal kinds are numbered by separate counters
that both count up from zero), and the single negative id in a session is
the -1 that GdbserverConnect writes over the unrecovered-panic breakpoint,
whose kind is nevertheless UserBreakpoint; the user id counter is
decremented along with it. -/
theorem C6_breakpoint_id_signs (s : PState) (addr panicpc : Nat)
    (kind : BreakpointKind) (loc ploc : Option (String × Nat × String))
    (stubOk : Bool) (s1 sp : PState) (bp pbp : Breakpoint) :
    (0 ≤ s.breakpointIDCounter → 0 ≤ s.internalBreakpointIDCounter →
      SetBreakpoint s addr kind loc stubOk = (s1, .ok bp) → 0 < bp.id) ∧
    (SetBreakpoint s panicpc .userBreakpoint ploc true = (sp, .ok pbp) →
      List.lookup panicpc (connectPanicStep s panicpc ploc true).breakpoints =
        some { pbp with name := "unrecovered-panic", id := -1 } ∧
      (connectPanicStep s panicpc ploc true).breakpointIDCounter =
        sp.breakpointIDCounter - 1 ∧
      pbp.kind = BreakpointKind.userBreakpoint) := by
  constructor
  · intro hu hi hset
    obtain ⟨-, -, -, -, -, -, hidu, hidi⟩ :=
      SetBreakpoint_ok_inv s addr kind loc stubOk s1 bp hset
    by_cases hk : kind = BreakpointKind.userBreakpoint
    · rw [hidu hk]; omega
    · rw [hidi hk]; omega
  · intro hset
    obtain ⟨hfree, -, hbps, -, -, hkind, -, -⟩ :=
      SetBreakpoint_ok_inv s panicpc .userBreakpoint ploc true sp pbp hset
    have hlook : List.lookup panicpc sp.breakpoints = some pbp := by
      rw [hbps]; exact lookup_append_single panicpc pbp s.breakpoints hfree
    refine ⟨?_, ?_, hkind⟩
    · simp only [connectPanicStep, hset]
      exact lookup_map_update sp.breakpoints panicpc _ pbp hlook
    · simp only [connectPanicStep, hset]

/-- Witness for C6 (amended): a user breakpoint created from the fresh
session carries id 1 > 0, and the connect-time panic step stores the
unrecovered-panic breakpoint with id -1 and kind UserBreakpoint while
moving the user counter back down to 0. -/
theorem C6_breakpoint_id_signs_witness :
    (0 : Int) <
      (SetBreakpoint c5Init 0x401000 BreakpointKind.userBreakpoint
        (some ("main.go", 10, "main.main")) true).2.toOption.elim 0
        (fun bp => bp.id) ∧
    List.lookup 0x500000 (connectPanicStep c5Init 0x500000
        (some ("panic.go", 1, "runtime.startpanic")) true).breakpoints =
      some { functionName := "runtime.startpanic", file := "panic.go",
             line := 1, addr := 0x500000, kind := .userBreakpoint, id := -1,
             name := "unrecovered-panic" } ∧
    (connectPanicStep c5Init 0x500000
        (some ("panic.go", 1, "runtime.startpanic")) true).breakpointIDCounter = 0 := by
  have h1 := (C6_breakpoint_id_signs c5Init 0x401000 0x500000
    BreakpointKind.userBreakpoint (some ("main.go", 10, "main.main"))
    (some ("panic.go", 1, "runtime.startpanic")) true
    (SetBreakpoint c5Init 0x401000 BreakpointKind.userBreakpoint
      (some ("main.go", 10, "main.main")) true).1
    (connectPanicStep c5Init 0x500000
      (some ("panic.go", 1, "runtime.startpanic")) true)
    { functionName := "main.main", file := "main.go", line := 10,
      addr := 0x401000, kind := .userBreakpoint, id := 1 }
    { functionName := "runtime.startpanic", file := "panic.go", line := 1,
      addr := 0x500000, kind := .userBreakpoint, id := 1 }).1
    (by decide) (by decide) rfl
  have h2 := (C6_breakpoint_id_signs c5Init 0x401000 0x500000
    BreakpointKind.userBreakpoint (some ("main.go", 10, "main.main"))
    (some ("panic.go", 1, "runtime.startpanic")) true c5Init
    { breakpoints := [(0x500000,
        { functionName := "runtime.startpanic", file := "panic.go",
          line := 1, addr := 0x500000, kind := .userBreakpoint, id := 1 })],
      breakpointIDCounter := 1, internalBreakpointIDCounter := 0,
      exited := false, ctrlC := false, pid := 42 }
    { functionName := "main.main", file := "main.go", line := 10,
      addr := 0x401000, kind := .userBreakpoint, id := 1 }
    { functionName := "runtime.startpanic", file := "panic.go", line := 1,
      addr := 0x500000, kind := .userBreakpoint, id := 1 }).2 rfl
  exact ⟨by decide, h2.1, by rw [h2.2.1]; decide⟩

/-- GdbserverProcess.Exited. -/
def Exited (s : PState) : Bool := s.exited

/-- GdbserverProcess.ContinueOnce, reduced to its exit-relevant control
flow: refuse immediately when already exited; otherwise drive the
continue loop on the stub's reply script (isDebugserver and the observed
ctrlC flag parameterize the signal classification); a W/X reply marks the
engine exited and surfaces ProcessExitedError; an accepted stop returns
the reporting thread's id (the post-loop thread-list refresh and
current-breakpoint computation do not touch the exited flag and are
modelled elsewhere). -/
def ContinueOnce (s : PState) (isDebugserver ctrlCObserved : Bool)
    (replies : List ResumeReply) : PState × Except GdbErr String :=
  if s.exited then (s, .error (.processExited s.pid 0))
  else
    match (continueLoop ctrlCObserved isDebugserver 0 replies).2 with
    | .exitedReply st => ({ s with exited := true }, .error (.processExited s.pid st))
    | .stopAccepted tid _ => (s, .ok tid)
    | .blocked => (s, .error .blocked)

/-- Outcomes of GdbserverProcess.StepInstruction relevant to run control:
no selected goroutine is an error; a parked goroutine (no bound thread)
goes through SetBreakpoint-and-Continue; with a live bound thread the
exited flag is consulted and, if set, the call refuses with
ProcessExitedError. -/
inductive StepOutcome where
  | errNoGoroutine
  | viaBreakpointContinue
  | errExited (pid : Int)
  | stepped
deriving DecidableEq

/-- GdbserverProcess.StepInstruction's dispatch.  selGThread is none when
no goroutine is selected, some none when the selected goroutine has no
bound thread, and some (some tid) for a live bound thread; the actual
single-step of the bound thread is abstracted as the stepped outcome. -/
def StepInstructionDispatch (s : PState) (selGThread : Option (Option Nat)) :
    StepOutcome :=
  match selGThread with
  | none => .errNoGoroutine
  | some none => .viaBreakpointContinue
  | some (some _) => if s.exited then .errExited s.pid else .stepped

/-- GdbserverProcess.Kill.  stubKillErr is the error returned by
conn.kill (the k packet); the returned Bool records whether the stub was
contacted at all. -/
def Kill (s : PState) (stubKillErr : Option GdbErr) :
    PState × Option GdbErr × Bool :=
  if s.exited then (s, none, false)
  else
    match stubKillErr with
    | some (.processExited _ _) =>
      ({ s with exited := true }, none, true)
    | e => (s, e, true)

/-- C7: a W/X resume reply makes ContinueOnce return ProcessExitedError
and mark the engine exited; afterwards Exited() is true, a further
ContinueOnce refuses with ProcessExitedError without consuming any stub
reply, StepInstruction with a live bound thread refuses with
ProcessExitedError, and Kill returns nil without contacting the stub. -/
theorem C7_process_exit_machine (s : PState) (isDebugserver ctrlC : Bool)
    (st : Nat) (rest replies : List ResumeReply) (tid : Nat)
    (stubKillErr : Option GdbErr) :
    (s.exited = false →
      ContinueOnce s isDebugserver ctrlC (ResumeReply.procExited st :: rest) =
        ({ s with exited := true }, .error (.processExited s.pid st)) ∧
      Exited { s with exited := true } = true) ∧
    (s.exited = true →
      ContinueOnce s isDebugserver ctrlC replies =
        (s, .error (.processExited s.pid 0))) ∧
    (s.exited = true →
      StepInstructionDispatch s (some (some tid)) = .errExited s.pid) ∧
    (s.exited = true → Kill s stubKillErr = (s, none, false)) := by
  refine ⟨?_, ?_, ?_, ?_⟩
  · intro hex
    refine ⟨?_, rfl⟩
    simp [ContinueOnce, hex, continueLoop]
  · intro hex
    simp [ContinueOnce, hex]
  · intro hex
    simp [StepInstructionDispatch, hex]
  · intro hex
    simp [Kill, hex]

/-- Witness for C7: a live session whose first resume reply is W00
transitions to the exited state and every subsequent operation refuses. -/
theorem C7_process_exit_machine_witness :
    (ContinueOnce c5Init false false [ResumeReply.procExited 0] =
      ({ c5Init with exited := true },
       .error (.processExited c5Init.pid 0)) ∧
     Exited { c5Init with exited := true } = true) ∧
    ContinueOnce { c5Init with exited := true } false false [] =
      ({ c5Init with exited := true },
       .error (.processExited { c5Init with exited := true }.pid 0)) ∧
    StepInstructionDispatch { c5Init with exited := true } (some (some 7)) =
      .errExited { c5Init with exited := true }.pid ∧
    Kill { c5Init with exited := true } none =
      ({ c5Init with exited := true }, none, false) :=
  ⟨(C7_process_exit_machine c5Init false false 0 [] [] 7 none).1 rfl,
   (C7_process_exit_machine { c5Init with exited := true } false false 0 [] []
      7 none).2.1 rfl,
   (C7_process_exit_machine { c5Init with exited := true } false false 0 [] []
      7 none).2.2.1 rfl,
   (C7_process_exit_machine { c5Init with exited := true } false false 0 [] []
      7 none).2.2.2 rfl⟩

/-- GdbserverProcess.loadGInstr: the MOV instruction that loads the G
address into rcx, selected by OS and G-struct offset; none where the
source panics (windows, unknown offsets, other OSes). -/
def loadGInstr (goos : String) (gStructOffset : Nat) : Option (List Nat) :=
  match goos with
  | "windows" => none
  | "linux" =>
    if gStructOffset = 0xfffffffffffffff8 ∨ gStructOffset = 0x0 then
      some [0x64, 0x48, 0x8B, 0x0C, 0x25, 0xF8, 0xFF, 0xFF, 0xFF]
    else if gStructOffset = 0xfffffffffffffff0 then
      some [0x64, 0x48, 0x8B, 0x0C, 0x25, 0xF0, 0xFF, 0xFF, 0xFF]
    else none
  | "darwin" => some [0x65, 0x48, 0x8B, 0x0C, 0x25, 0xA0, 0x08, 0x00, 0x00]
  | _ => none

/-- gdbserverThreadBlocked: a thread whose PC lies inside one of the listed
runtime functions is treated as having no live G.  fnAtPC is the result of
goSymTable.PCToFunc on the thread's PC (none when the lookup fails, which
the source also treats as not blocked). -/
def gdbserverThreadBlocked (fnAtPC : Option String) : Bool :=
  match fnAtPC with
  | none => false
  | some name =>
    match name with
    | "runtime.futex" => true
    | "runtime.usleep" => true
    | "runtime.clone" => true
    | "runtime.kevent" => true
    | "runtime.mach_semaphore_wait" => true
    | "runtime.mach_semaphore_timedwait" => true
    | _ => false

/-- Register-bank registers touched by the G resolver, plus the derived
gaddr fields. -/
structure BankRegs where
  pc : Nat
  cx : Nat
  tls : Nat
  gaddr : Nat
  hasgaddr : Bool
deriving DecidableEq

/-- Protocol operations issued to the stub during a G reload, recorded as
a trace. -/
inductive StubEvent where
  | clearBp (addr : Nat)
  | setBp (addr : Nat)
  | readMem (addr len : Nat)
  | writeMem (addr : Nat) (bytes : List Nat)
  | stepInstr
  | readRegs
  | writeRegs (pc cx : Nat)
deriving DecidableEq

/-- Machine state seen by reloadGAtPC / reloadGAlloc: inferior memory,
the stub-side values of the PC and rcx registers, the set of breakpoints
currently installed in the stub, the thread's register bank, and the
trace of stub operations issued so far. -/
structure GMachine where
  mem : Nat → Nat
  stubPc : Nat
  stubCx : Nat
  stubBps : List Nat
  bank : BankRegs
  events : List StubEvent

/-- Memory write of a byte string at an address (conn.writeMemory). -/
def writeMemBytes (mem : Nat → Nat) (addr : Nat) (bytes : List Nat) :
    Nat → Nat :=
  fun a => if addr ≤ a ∧ a < addr + bytes.length then bytes.getD (a - addr) 0
           else mem a

/-- Memory read of len bytes at an address (GdbserverThread.ReadMemory). -/
def readMemBytes (mem : Nat → Nat) (addr len : Nat) : List Nat :=
  (List.range len).map (fun i => mem (addr + i))

/-- GdbserverThread.reloadGAtPC on the all-stub-calls-succeed path.
fnAtPC drives the blocked-thread shortcut; pcAfter/cxAfter are the stub
register values after the injected MOV executes.  The sequence follows
the source including its deferred calls, which run in LIFO order: clear
every breakpoint in [pc, pc+len(movinstr)], save the bytes under PC,
write the MOV, step, read PC and rcx into the bank, record gaddr; then
the deferred restore writes the saved code back, resets the bank PC and
rcx and writes them to the stub, and finally the deferred setBreakpoint
calls reinstall the cleared breakpoints.  Returns none where the source
panics (unsupported OS in loadGInstr). -/
def reloadGAtPC (goos : String) (gStructOffset : Nat)
    (fnAtPC : Option String) (pcAfter cxAfter : Nat) (m : GMachine) :
    Option GMachine :=
  match loadGInstr goos gStructOffset with
  | none => none
  | some movinstr =>
    if gdbserverThreadBlocked fnAtPC then
      some { m with bank := { m.bank with tls := 0, gaddr := 0, hasgaddr := true } }
    else
      let cx := m.bank.cx
      let pc := m.bank.pc
      let cleared := m.stubBps.filter
        (fun a => decide (pc ≤ a ∧ a ≤ pc + movinstr.length))
      let m1 := { m with
        stubBps := m.stubBps.filter
          (fun a => decide (¬ (pc ≤ a ∧ a ≤ pc + movinstr.length))),
        events := m.events ++ cleared.map StubEvent.clearBp }
      let savedcode := readMemBytes m1.mem pc movinstr.length
      let m2 := { m1 with events := m1.events ++ [StubEvent.readMem pc movinstr.length] }
      let m3 := { m2 with mem := writeMemBytes m2.mem pc movinstr,
                          events := m2.events ++ [StubEvent.writeMem pc movinstr] }
      let m4 := { m3 with stubPc := pcAfter, stubCx := cxAfter,
                          events := m3.events ++ [StubEvent.stepInstr] }
      let m5 := { m4 with bank := { m4.bank with pc := m4.stubPc, cx := m4.stubCx },
                          events := m4.events ++ [StubEvent.readRegs] }
      let m6 := { m5 with bank := { m5.bank with gaddr := m5.bank.cx, hasgaddr := true } }
      let m7 := { m6 with mem := writeMemBytes m6.mem pc savedcode,
                          events := m6.events ++ [StubEvent.writeMem pc savedcode] }
      let m8 := { m7 with bank := { m7.bank with pc := pc, cx := cx } }
      let m9 := { m8 with stubPc := pc, stubCx := cx,
                          events := m8.events ++ [StubEvent.writeRegs pc cx] }
      some { m9 with stubBps := m9.stubBps ++ cleared.reverse,
                     events := m9.events ++ cleared.reverse.map StubEvent.setBp }

/-- GdbserverThread.reloadGAlloc on the all-stub-calls-succeed path: set
the bank PC to loadGInstrAddr, write registers, step, read rcx into the
bank, record gaddr, then the deferred restore resets the bank PC and rcx
and writes them back. -/
def reloadGAlloc (loadGInstrAddr : Nat) (fnAtPC : Option String)
    (pcAfter cxAfter : Nat) (m : GMachine) : GMachine :=
  if gdbserverThreadBlocked fnAtPC then
    { m with bank := { m.bank with tls := 0, gaddr := 0, hasgaddr := true } }
  else
    let cx := m.bank.cx
    let pc := m.bank.pc
    let m1 := { m with bank := { m.bank with pc := loadGInstrAddr } }
    let m2 := { m1 with stubPc := m1.bank.pc, stubCx := m1.bank.cx,
                        events := m1.events ++ [StubEvent.writeRegs m1.bank.pc m1.bank.cx] }
    let m3 := { m2 with stubPc := pcAfter, stubCx := cxAfter,
                        events := m2.events ++ [StubEvent.stepInstr] }
    let m4 := { m3 with bank := { m3.bank with cx := m3.stubCx },
                        events := m3.events ++ [StubEvent.readRegs] }
    let m5 := { m4 with bank := { m4.bank with gaddr := m4.bank.cx, hasgaddr := true } }
    let m6 := { m5 with bank := { m5.bank with pc := pc, cx := cx } }
    { m6 with stubPc := pc, stubCx := cx,
              events := m6.events ++ [StubEvent.writeRegs pc cx] }

/-- Writing back the bytes previously read from an address range restores
memory at every address. -/
theorem writeMem_read_restore (mem : Nat → Nat) (pc : Nat)
    (code : List Nat) (b : Nat) :
    writeMemBytes (writeMemBytes mem pc code) pc
      (readMemBytes mem pc code.length) b = mem b := by
  unfold writeMemBytes readMemBytes
  simp only [List.length_map, List.length_range]
  by_cases hin : pc ≤ b ∧ b < pc + code.length
  · rw [if_pos hin]
    have hlt : b - pc < code.length := by omega
    rw [List.getD_eq_getElem?_getD, List.getElem?_map, List.getElem?_range hlt]
    simp only [Option.map_some', Option.getD_some]
    congr 1
    omega
  · rw [if_neg hin, if_neg hin]

/-- C8: a successful reloadGAtPC on a non-blocked thread restores every
memory byte, restores the register bank's PC and rcx (changing only
gaddr and hasgaddr), leaves the stub-side PC and rcx equal to the bank's
pre-call values, and reinstalls every breakpoint it cleared, so the stub
breakpoint set is unchanged. -/
theorem C8_reloadGAtPC_restores (goos : String) (off : Nat)
    (fnAtPC : Option String) (pcAfter cxAfter : Nat) (m m' : GMachine)
    (mi : List Nat) (a : Nat)
    (hmi : loadGInstr goos off = some mi)
    (hnb : gdbserverThreadBlocked fnAtPC = false)
    (h : reloadGAtPC goos off fnAtPC pcAfter cxAfter m = some m') :
    (∀ b, m'.mem b = m.mem b) ∧
    m'.bank = { m.bank with gaddr := cxAfter, hasgaddr := true } ∧
    m'.stubPc = m.bank.pc ∧ m'.stubCx = m.bank.cx ∧
    (a ∈ m'.stubBps ↔ a ∈ m.stubBps) := by
  rw [reloadGAtPC, hmi] at h
  rw [hnb] at h
  simp only [Bool.false_eq_true, if_false, Option.some.injEq] at h
  subst h
  refine ⟨?_, ?_, rfl, rfl, ?_⟩
  · intro b
    exact writeMem_read_restore m.mem m.bank.pc mi b
  · rfl
  · simp only [List.mem_append, List.mem_reverse, List.mem_filter,
      decide_eq_true_eq]
    by_cases hc : m.bank.pc ≤ a ∧ a ≤ m.bank.pc + mi.length
    · simp [hc]
    · simp [hc]

/-- C9: on a thread whose PC lies inside one of the blocked runtime
functions, both reloadGAtPC and reloadGAlloc set gaddr to 0 and hasgaddr
to true (and tls to 0) and return at once: memory, stub registers, stub
breakpoints and the event trace are untouched, so no step, memory write
or register write is issued. -/
theorem C9_blocked_thread_shortcut (goos : String) (off : Nat)
    (name : String) (pcAfter cxAfter laddr : Nat) (m : GMachine)
    (mi : List Nat)
    (hname : name = "runtime.futex" ∨ name = "runtime.usleep" ∨
      name = "runtime.clone" ∨ name = "runtime.kevent" ∨
      name = "runtime.mach_semaphore_wait" ∨
      name = "runtime.mach_semaphore_timedwait")
    (hmi : loadGInstr goos off = some mi) :
    reloadGAtPC goos off (some name) pcAfter cxAfter m =
      some { m with bank := { m.bank with tls := 0, gaddr := 0, hasgaddr := true } } ∧
    reloadGAlloc laddr (some name) pcAfter cxAfter m =
      { m with bank := { m.bank with tls := 0, gaddr := 0, hasgaddr := true } } := by
  have hb : gdbserverThreadBlocked (some name) = true := by
    rcases hname with h | h | h | h | h | h <;> subst h <;> rfl
  constructor
  · rw [reloadGAtPC, hmi, hb]
    simp
  · rw [reloadGAlloc, hb]
    simp

/-- Concrete machine for the C8 and C9 witnesses: a thread stopped at
0x400000 with a stub breakpoint inside the overwritten range and one
outside it. -/
def c8Machine : GMachine :=
  { mem := fun a => a % 256, stubPc := 0x400000, stubCx := 3,
    stubBps := [0x400004, 0x500000],
    bank := { pc := 0x400000, cx := 3, tls := 0, gaddr := 0, hasgaddr := false },
    events := [] }

/-- Witness for C8: running reloadGAtPC on the concrete machine (linux,
G-struct offset 0, thread inside main.f) restores memory at 0x400004,
restores the bank and stub PC/rcx, and keeps 0x400004 in the stub
breakpoint set. -/
theorem C8_reloadGAtPC_restores_witness :
    (∀ b, ((reloadGAtPC "linux" 0 (some "main.f") 0x400009 0xc0de
        c8Machine).getD c8Machine).mem b = c8Machine.mem b) ∧
    ((reloadGAtPC "linux" 0 (some "main.f") 0x400009 0xc0de
        c8Machine).getD c8Machine).bank =
      { c8Machine.bank with gaddr := 0xc0de, hasgaddr := true } ∧
    ((reloadGAtPC "linux" 0 (some "main.f") 0x400009 0xc0de
        c8Machine).getD c8Machine).stubPc = c8Machine.bank.pc ∧
    ((reloadGAtPC "linux" 0 (some "main.f") 0x400009 0xc0de
        c8Machine).getD c8Machine).stubCx = c8Machine.bank.cx ∧
    (0x400004 ∈ ((reloadGAtPC "linux" 0 (some "main.f") 0x400009 0xc0de
        c8Machine).getD c8Machine).stubBps ↔ 0x400004 ∈ c8Machine.stubBps) :=
  C8_reloadGAtPC_restores "linux" 0 (some "main.f") 0x400009 0xc0de
    c8Machine _ [0x64, 0x48, 0x8B, 0x0C, 0x25, 0xF8, 0xFF, 0xFF, 0xFF]
    0x400004 rfl rfl rfl

/-- Witness for C9: a thread parked in runtime.futex takes the blocked
shortcut in both reload strategies. -/
theorem C9_blocked_thread_shortcut_witness :
    reloadGAtPC "linux" 0 (some "runtime.futex") 0x400009 0xc0de c8Machine =
      some { c8Machine with bank :=
        { c8Machine.bank with tls := 0, gaddr := 0, hasgaddr := true } } ∧
    reloadGAlloc 0x700000 (some "runtime.futex") 0x400009 0xc0de c8Machine =
      { c8Machine with bank :=
        { c8Machine.bank with tls := 0, gaddr := 0, hasgaddr := true } } :=
  C9_blocked_thread_shortcut "linux" 0 "runtime.futex" 0x400009 0xc0de
    0x700000 c8Machine [0x64, 0x48, 0x8B, 0x0C, 0x25, 0xF8, 0xFF, 0xFF, 0xFF]
    (Or.inl rfl) rfl

end GdbProc
